import Mathlib

/-!
Verification of the blog-demo scripts: the kedro partitioned-dataset filter
(`posts/kedro-index-partitioned-dataset.py`), the pydantic/SQLAlchemy nested
serialization example (`posts/pydantic-and-nested-relationships.py`), and the
live-reload launcher (`live_reload.py`).

Python dictionaries are embedded as association lists that preserve insertion
order; machine-level details do not matter for these scripts.  Operations that
may raise an exception are embedded in `Except String`: an `Except.error`
value is an uncaught Python exception propagating outward.
-/

namespace Kedro

/-- A partition payload: the JSON dictionary stored in one partition of the
partitioned dataset, as an association list from string keys to strings. -/
abbrev Payload := List (String × String)

/-- The dictionary returned by `PartitionedDataSet.load()`: partition ids
mapped to partition load callables.  A callable may fail (an exception while
reading the underlying file), hence `Except`. -/
abbrev LoadedPartitionedDataset := List (String × (Unit → Except String Payload))

/-- Embedding of `filter_datasets` from
`posts/kedro-index-partitioned-dataset.py`: walk the loaded dictionary in
iteration order, return `partition_load_func()` for the first key equal to
`filter`, and the empty dictionary when no key matches. -/
def filter_datasets (loaded_partitioned_dataset : LoadedPartitionedDataset)
    (filter : String) : Except String Payload :=
  match loaded_partitioned_dataset with
  | [] => Except.ok []
  | (key, partition_load_func) :: rest =>
    if key = filter then partition_load_func ()
    else filter_datasets rest filter

/-- Embedding of Python `dict.get(key)`: the value under `key`, or `None`. -/
def dict_get (d : Payload) (key : String) : Option String :=
  (d.find? (fun p => p.1 == key)).map Prod.snd

/-- Payload saved for partition `florian`. -/
def florian_payload : Payload := [("is", "He is the boss!")]

/-- Payload saved for partition `flavien`. -/
def flavien_payload : Payload := [("is", "I am the boss...of JIRA!")]

/-- Payload saved for partition `julien`. -/
def julien_payload : Payload := [("is", "He is my boss...Oh, wait, no it\x27s Aymeric now!")]

/-- The loaded partitioned dataset of the demo: the three saved partitions,
each load callable returning the stored payload. -/
def loaded_partitioned_dataset_demo : LoadedPartitionedDataset :=
  [("florian", fun _ => Except.ok florian_payload),
   ("flavien", fun _ => Except.ok flavien_payload),
   ("julien", fun _ => Except.ok julien_payload)]

/-- The first names queried by the demo loop. -/
def first_names : List String := ["Florian", "Julien", "Flavien"]

/-- Embedding of Python `str.lower()` (all queried names are ASCII): map every
character to its lower-case form. -/
def str_lower (s : String) : String := ⟨s.data.map Char.toLower⟩

/-- One iteration of the demo loop: the script lowercases the first name
(`first_name.lower()`) and passes it as the filter. -/
def kedro_query (loaded : LoadedPartitionedDataset) (first_name : String) :
    Except String Payload :=
  filter_datasets loaded (str_lower first_name)

/-- The demo `__main__` loop: for each first name, look the lowercased name up
and print `Who is <name>?` together with the `"is"` entry of the payload
(`None` when absent).  An exception in any iteration aborts the loop. -/
def kedro_main_loop (loaded : LoadedPartitionedDataset) :
    Except String (List (String × Option String)) :=
  first_names.mapM (fun first_name =>
    (kedro_query loaded first_name).map
      (fun payload => ("Who is " ++ first_name ++ "?", dict_get payload "is")))

theorem filter_datasets_nomatch (loaded : LoadedPartitionedDataset)
    (filter : String) (h : ∀ p ∈ loaded, p.1 ≠ filter) :
    filter_datasets loaded filter = Except.ok [] := by
  induction loaded with
  | nil => rfl
  | cons p rest ih =>
    obtain ⟨key, load_func⟩ := p
    have hk : key ≠ filter := h (key, load_func) (List.mem_cons_self _ _)
    simp only [filter_datasets, if_neg hk]
    exact ih (fun q hq => h q (List.mem_cons_of_mem _ hq))

theorem filter_datasets_eq_find (loaded : LoadedPartitionedDataset)
    (filter : String) :
    filter_datasets loaded filter =
      match loaded.find? (fun p => p.1 == filter) with
      | some p => p.2 ()
      | none => Except.ok [] := by
  induction loaded with
  | nil => rfl
  | cons p rest ih =>
    obtain ⟨key, load_func⟩ := p
    by_cases hk : key = filter
    · simp [filter_datasets, List.find?, hk]
    · simp only [filter_datasets, if_neg hk, List.find?]
      have : ((key, load_func).1 == filter) = false := by
        simpa using hk
      rw [this]
      exact ih

/-- C1: for the loaded dataset holding exactly the three saved partitions
`florian`, `flavien` and `julien` with their payloads, `filter_datasets`
returns the stored payload when the filter equals one of the three partition
keys, and the empty dictionary when it equals none of them. -/
theorem filter_datasets_demo_lookup (filter : String)
    (h : filter ∉ ["florian", "flavien", "julien"]) :
    filter_datasets loaded_partitioned_dataset_demo "florian" =
        Except.ok florian_payload ∧
    filter_datasets loaded_partitioned_dataset_demo "flavien" =
        Except.ok flavien_payload ∧
    filter_datasets loaded_partitioned_dataset_demo "julien" =
        Except.ok julien_payload ∧
    filter_datasets loaded_partitioned_dataset_demo filter = Except.ok [] := by
  refine ⟨rfl, rfl, rfl, ?_⟩
  simp only [List.mem_cons, List.not_mem_nil, or_false, not_or] at h
  apply filter_datasets_nomatch
  intro p hp
  simp only [loaded_partitioned_dataset_demo, List.mem_cons,
    List.not_mem_nil, or_false] at hp
  rcases hp with hp | hp | hp <;> subst hp
  · exact fun he => h.1 he.symm
  · exact fun he => h.2.1 he.symm
  · exact fun he => h.2.2 he.symm

/-- Witness for C1 at the concrete non-matching filter `alice`. -/
theorem filter_datasets_demo_lookup_witness :
    "alice" ∉ ["florian", "flavien", "julien"] ∧
    filter_datasets loaded_partitioned_dataset_demo "alice" = Except.ok [] :=
  ⟨by decide, (filter_datasets_demo_lookup "alice" (by decide)).2.2.2⟩

theorem filter_datasets_first_entry (pre post : LoadedPartitionedDataset)
    (key : String) (g : Unit → Except String Payload) (filter : String)
    (hpre : ∀ p ∈ pre, p.1 ≠ filter) (hkey : key = filter) :
    filter_datasets (pre ++ (key, g) :: post) filter = g () := by
  subst hkey
  induction pre with
  | nil => simp [filter_datasets]
  | cons q t ih =>
    obtain ⟨k, g'⟩ := q
    have hk : k ≠ key := hpre (k, g') (List.mem_cons_self _ _)
    simp only [List.cons_append, filter_datasets, if_neg hk]
    exact ih (fun p hp => hpre p (List.mem_cons_of_mem _ hp))

theorem filter_datasets_frame (l₁ l₂ : LoadedPartitionedDataset)
    (filter : String) (hkeys : l₁.map Prod.fst = l₂.map Prod.fst)
    (hfirst : ∀ i (h₁ : i < l₁.length) (h₂ : i < l₂.length),
      (l₁.get ⟨i, h₁⟩).1 = filter →
      (∀ j (hj : j < l₁.length), j < i → (l₁.get ⟨j, hj⟩).1 ≠ filter) →
      (l₁.get ⟨i, h₁⟩).2 () = (l₂.get ⟨i, h₂⟩).2 ()) :
    filter_datasets l₁ filter = filter_datasets l₂ filter := by
  induction l₁ generalizing l₂ with
  | nil =>
    cases l₂ with
    | nil => rfl
    | cons b t₂ => simp at hkeys
  | cons a t ih =>
    cases l₂ with
    | nil => simp at hkeys
    | cons b t₂ =>
      simp only [List.map_cons, List.cons.injEq] at hkeys
      obtain ⟨hab, htail⟩ := hkeys
      obtain ⟨k₁, g₁⟩ := a
      obtain ⟨k₂, g₂⟩ := b
      simp only at hab
      subst hab
      by_cases hk : k₁ = filter
      · simp only [filter_datasets, if_pos hk]
        exact hfirst 0 (Nat.succ_pos _) (Nat.succ_pos _) hk
          (fun j hj hj0 => absurd hj0 (Nat.not_lt_zero j))
      · simp only [filter_datasets, if_neg hk]
        apply ih t₂ htail
        intro i h₁ h₂ hm hmin
        exact hfirst (i + 1) (Nat.succ_lt_succ h₁) (Nat.succ_lt_succ h₂) hm
          (fun j hj hji => by
            cases j with
            | zero => exact hk
            | succ j' =>
              exact hmin j' (Nat.lt_of_succ_lt_succ hj)
                (Nat.lt_of_succ_lt_succ hji))

theorem char_not_upper_and_lower (c : Char) (h1 : c.isUpper) (h2 : c.isLower) :
    False := by
  simp only [Char.isUpper, Char.isLower, Bool.and_eq_true, decide_eq_true_eq,
    UInt32.le_def, BitVec.le_def] at h1 h2
  have e90 : ((90 : UInt32)).toBitVec.toNat = 90 := rfl
  have e97 : ((97 : UInt32)).toBitVec.toNat = 97 := rfl
  rw [e90] at h1
  rw [e97] at h2
  omega

/-- C2 is refuted on the kedro script: a lookup with a missing key does not
raise.  Filtering the demo dataset by the absent key `alice` returns the
normal value `{}` (`Except.ok`, not `Except.error`), and reading the absent
`"is"` entry of the result with `.get` yields `None`. -/
theorem missing_key_lookup_returns_normally :
    filter_datasets loaded_partitioned_dataset_demo "alice" = Except.ok [] ∧
    dict_get [] "is" = none :=
  ⟨rfl, rfl⟩

/-- C2 amended: no script installs an exception handler, so an error raised
by a library call propagates unchanged: `filter_datasets` returns the first
matching partition load result as is, errors included, and an error in the
first query of the demo loop aborts the whole loop with that error.  A lookup
with a missing key, however, does not raise: `filter_datasets` returns the
empty mapping `{}` when no key matches the filter. -/
theorem uncaught_errors_propagate :
    (∀ (pre post : LoadedPartitionedDataset) (key : String)
        (g : Unit → Except String Payload) (filter : String),
      (∀ p ∈ pre, p.1 ≠ filter) → key = filter →
      filter_datasets (pre ++ (key, g) :: post) filter = g ()) ∧
    (∀ (loaded : LoadedPartitionedDataset) (e : String),
      filter_datasets loaded "florian" = Except.error e →
      kedro_main_loop loaded = Except.error e) ∧
    (∀ (loaded : LoadedPartitionedDataset) (filter : String),
      (∀ p ∈ loaded, p.1 ≠ filter) →
      filter_datasets loaded filter = Except.ok []) := by
  refine ⟨filter_datasets_first_entry, ?_, filter_datasets_nomatch⟩
  intro loaded e herr
  have hq : kedro_query loaded "Florian" = Except.error e := by
    show filter_datasets loaded (str_lower "Florian") = _
    rw [show str_lower "Florian" = "florian" from by decide]
    exact herr
  simp [kedro_main_loop, first_names, List.mapM, List.mapM.loop, hq,
    Except.map, bind, Except.bind]

/-- Witness for C2 amended: a partition whose load callable raises makes both
`filter_datasets` and the whole demo loop return that error unchanged. -/
theorem uncaught_errors_propagate_witness :
    filter_datasets [("florian", fun _ => Except.error "boom")] "florian" =
      Except.error "boom" ∧
    kedro_main_loop [("florian", fun _ => Except.error "boom")] =
      Except.error "boom" := by
  constructor
  · exact uncaught_errors_propagate.1 [] []
      "florian" (fun _ => Except.error "boom") "florian"
      (by intro p hp; exact absurd hp (List.not_mem_nil p)) rfl
  · exact uncaught_errors_propagate.2.1
      [("florian", fun _ => Except.error "boom")] "boom" rfl

/-- C8: `filter_datasets` invokes the load function of at most one entry, the
first one in iteration order whose key equals the filter: the result equals
that entry's `partition_load_func ()` (or `{}` when no key matches), and is
unchanged when the load functions of all other entries — later equal keys
included — are replaced arbitrarily. -/
theorem filter_datasets_invokes_first_match_only :
    (∀ (loaded : LoadedPartitionedDataset) (filter : String),
      filter_datasets loaded filter =
        match loaded.find? (fun p => p.1 == filter) with
        | some p => p.2 ()
        | none => Except.ok []) ∧
    (∀ (l₁ l₂ : LoadedPartitionedDataset) (filter : String),
      l₁.map Prod.fst = l₂.map Prod.fst →
      (∀ i (h₁ : i < l₁.length) (h₂ : i < l₂.length),
        (l₁.get ⟨i, h₁⟩).1 = filter →
        (∀ j (hj : j < l₁.length), j < i → (l₁.get ⟨j, hj⟩).1 ≠ filter) →
        (l₁.get ⟨i, h₁⟩).2 () = (l₂.get ⟨i, h₂⟩).2 ()) →
      filter_datasets l₁ filter = filter_datasets l₂ filter) :=
  ⟨filter_datasets_eq_find, filter_datasets_frame⟩

/-- Witness for C8: replacing the load functions of the non-first-match
entries (among them a later duplicate of the matching key) by failing ones
does not change the result. -/
theorem filter_datasets_invokes_first_match_only_witness :
    filter_datasets
        [("a", fun _ => Except.ok [("v", "1")]), ("b", fun _ => Except.ok []),
         ("a", fun _ => Except.ok [("dup", "x")])] "a" =
      filter_datasets
        [("a", fun _ => Except.ok [("v", "1")]),
         ("b", fun _ => Except.error "boom"),
         ("a", fun _ => Except.error "boom2")] "a" := by
  apply filter_datasets_invokes_first_match_only.2
  · rfl
  · intro i h₁ h₂ hm hmin
    have h3 : i < 3 := h₁
    interval_cases i
    · rfl
    · simp at hm
    · exact absurd rfl (hmin 0 (by decide) (by decide))

/-- C9: key matching in `filter_datasets` is case-sensitive exact string
equality: whenever every character of every key is lower-case and the filter
contains an upper-case character, the result is the empty mapping; the demo
loop accordingly lowercases each first name, so `kedro_query` finds the
partition for `Florian` while the raw filter `Florian` finds nothing. -/
theorem filter_datasets_case_sensitive_keys :
    (∀ (loaded : LoadedPartitionedDataset) (filter : String),
      (∀ p ∈ loaded, ∀ c ∈ p.1.data, c.isLower) →
      (∃ c ∈ filter.data, c.isUpper) →
      filter_datasets loaded filter = Except.ok []) ∧
    filter_datasets loaded_partitioned_dataset_demo "Florian" = Except.ok [] ∧
    kedro_query loaded_partitioned_dataset_demo "Florian" =
      Except.ok florian_payload := by
  refine ⟨?_, rfl, ?_⟩
  · rintro loaded filter hlow ⟨c, hc, hup⟩
    apply filter_datasets_nomatch
    intro p hp he
    have hcp : c ∈ p.1.data := by rw [he]; exact hc
    exact char_not_upper_and_lower c hup (hlow p hp c hcp)
  · show filter_datasets loaded_partitioned_dataset_demo (str_lower "Florian") = _
    rw [show str_lower "Florian" = "florian" from by decide]
    rfl

/-- Witness for C9 at the all-lower-case demo dataset and the upper-case
filter `JULIEN`. -/
theorem filter_datasets_case_sensitive_keys_witness :
    filter_datasets loaded_partitioned_dataset_demo "JULIEN" = Except.ok [] :=
  filter_datasets_case_sensitive_keys.1 loaded_partitioned_dataset_demo
    "JULIEN" (by decide) (by decide)

end Kedro

namespace Pydantic

/-- A Python value as produced by the serializers: integers, strings, lists
and dictionaries (association lists preserving insertion order). -/
inductive PyVal where
  | int (n : Int)
  | str (s : String)
  | list (xs : List PyVal)
  | dict (fields : List (String × PyVal))

/-- A row of the `user` table. -/
structure UserRecord where
  id : Nat
  name : String
  deriving DecidableEq

/-- A row of the `comment` table. -/
structure CommentRecord where
  id : Nat
  comment : String
  user_id : Nat
  deriving DecidableEq

/-- A SQL column type used by the example. -/
inductive ColType where
  | integer
  | text
  deriving DecidableEq

/-- A declared column: name, type, whether it is a primary key, whether it is
nullable (SQLAlchemy default: nullable unless primary key or
`nullable=False`), and an optional foreign-key target `(table, column)`. -/
structure ColumnDef where
  name : String
  coltype : ColType
  primary_key : Bool
  nullable : Bool
  foreign_key : Option (String × String)
  deriving DecidableEq

/-- A declared `relationship(...)`: the attribute holding it, the target
mapped class, and its `back_populates` attribute on the target. -/
structure RelationshipDef where
  attr : String
  target : String
  back_populates : String
  deriving DecidableEq

/-- A declarative table: `__tablename__`, columns, relationships. -/
structure TableDef where
  tablename : String
  columns : List ColumnDef
  relationships : List RelationshipDef
  deriving DecidableEq

/-- The `User` declarative class of
`posts/pydantic-and-nested-relationships.py`. -/
def user_table : TableDef :=
  { tablename := "user",
    columns := [
      { name := "id", coltype := .integer, primary_key := true,
        nullable := false, foreign_key := none },
      { name := "name", coltype := .text, primary_key := false,
        nullable := false, foreign_key := none }],
    relationships := [
      { attr := "comments", target := "Comment", back_populates := "user" }] }

/-- The `Comment` declarative class: `user_id = Column(Integer,
ForeignKey("user.id"))` carries no `nullable=False`, so it is nullable. -/
def comment_table : TableDef :=
  { tablename := "comment",
    columns := [
      { name := "id", coltype := .integer, primary_key := true,
        nullable := false, foreign_key := none },
      { name := "comment", coltype := .text, primary_key := false,
        nullable := false, foreign_key := none },
      { name := "user_id", coltype := .integer, primary_key := false,
        nullable := true, foreign_key := some ("user", "id") }],
    relationships := [
      { attr := "user", target := "User", back_populates := "comments" }] }

/-- The schema created by `Base.metadata.create_all(engine)`. -/
def schema : List TableDef := [user_table, comment_table]

/-- The non-primary-key (data) columns of a table. -/
def TableDef.data_columns (t : TableDef) : List ColumnDef :=
  t.columns.filter (fun c => !c.primary_key)

/-- The primary-key columns of a table. -/
def TableDef.primary_key_columns (t : TableDef) : List ColumnDef :=
  t.columns.filter (fun c => c.primary_key)

/-- C5: the declared schema is exactly two tables.  The parent `user` has the
non-nullable text `name` as its only data column; the dependent `comment` has
a non-nullable text `comment` column and a `user_id` column whose foreign
key references `user.id`, the parent's primary-key column; the two classes
are linked by the bidirectional relationship `comments`/`user`, each side
naming the other through `back_populates`. -/
theorem schema_is_two_linked_tables :
    schema = [user_table, comment_table] ∧ schema.length = 2 ∧
    user_table.data_columns.map
        (fun c => (c.name, c.coltype, c.nullable)) =
      [("name", ColType.text, false)] ∧
    comment_table.data_columns.map
        (fun c => (c.name, c.coltype, c.nullable, c.foreign_key)) =
      [("comment", ColType.text, false, none),
       ("user_id", ColType.integer, true, some ("user", "id"))] ∧
    user_table.primary_key_columns.map ColumnDef.name = ["id"] ∧
    user_table.relationships =
      [{ attr := "comments", target := "Comment",
         back_populates := "user" }] ∧
    comment_table.relationships =
      [{ attr := "user", target := "User",
         back_populates := "comments" }] := by
  decide

/-- The database: the rows of the two tables. -/
structure DBState where
  users : List UserRecord
  comments : List CommentRecord
  deriving DecidableEq

/-- Referential integrity: every comment row's `user_id` is the `id` of an
existing user row. -/
def referential_integrity (s : DBState) : Bool :=
  s.comments.all (fun c => s.users.any (fun u => u.id == c.user_id))

/-- A `Comment(...)` object constructed in the script, before flushing. -/
structure PendingComment where
  comment : String

/-- A `User(...)` object constructed in the script with the comments attached
to it through the `user=user` relationship keyword. -/
structure PendingUser where
  name : String
  comments : List PendingComment

/-- The objects constructed by the demo `__main__`. -/
def demo_user : PendingUser :=
  { name := "Alice",
    comments := [{ comment := "First comment." },
                 { comment := "Second comment." }] }

/-- Modelled from the spec: an ORM relationship is "a declarative link
letting a parent record's dependent records be fetched automatically", and
`session.add(user); session.commit()` persists the parent with its attached
dependents: integer primary keys are assigned by each table's autoincrement,
and every dependent row's `user_id` is set to the parent's new primary
key. -/
def commit_add_user (s : DBState) (u : PendingUser) : DBState :=
  let uid := s.users.length + 1
  { users := s.users ++ [{ id := uid, name := u.name }],
    comments := s.comments ++ u.comments.enum.map (fun p =>
      { id := s.comments.length + p.1 + 1, comment := p.2.comment,
        user_id := uid }) }

/-- The empty tables right after `create_all`. -/
def db_state_initial : DBState := { users := [], comments := [] }

/-- The database after `session.add(user); session.commit()`. -/
def db_state_committed : DBState := commit_add_user db_state_initial demo_user

/-- Every database state the demo script reaches, in order. -/
def demo_db_states : List DBState := [db_state_initial, db_state_committed]

/-- C6: referential integrity holds in every state the demo script reaches:
each comment row's `user_id` refers to an existing user row's `id`, and in
the final state both created comments reference the single created user. -/
theorem demo_referential_integrity :
    demo_db_states.all referential_integrity = true ∧
    db_state_committed.users.map UserRecord.id = [1] ∧
    db_state_committed.comments.map CommentRecord.user_id = [1, 1] := by
  decide

/-- An ORM `User` object as loaded in a session: its row values together
with the comment rows reached through the `comments` relationship. -/
structure OrmUser where
  id : Nat
  name : String
  comments : List CommentRecord

/-- Relationship loading: the ORM user for `uid`, whose `comments` attribute
holds the comment rows with `user_id = uid`. -/
def load_orm_user (s : DBState) (uid : Nat) : Option OrmUser :=
  (s.users.find? (fun u => u.id == uid)).map (fun u =>
    { id := u.id, name := u.name,
      comments := s.comments.filter (fun c => c.user_id == uid) })

/-- The `CommentSerializer` pydantic model. -/
structure CommentSerializer where
  id : Nat
  comment : String
  user_id : Nat

/-- Field extraction performed by `CommentSerializer.from_orm`. -/
def CommentSerializer.from_orm (c : CommentRecord) : CommentSerializer :=
  { id := c.id, comment := c.comment, user_id := c.user_id }

/-- The `.dict()` of a `CommentSerializer`: all three fields. -/
def CommentSerializer.dict (s : CommentSerializer) : PyVal :=
  .dict [("id", .int s.id), ("comment", .str s.comment),
         ("user_id", .int s.user_id)]

/-- The `CommentToStringSerializer` pydantic model: only the comment text. -/
structure CommentToStringSerializer where
  comment : String

/-- Field extraction performed by `CommentToStringSerializer.from_orm`. -/
def CommentToStringSerializer.from_orm (c : CommentRecord) :
    CommentToStringSerializer :=
  { comment := c.comment }

/-- The `super().dict(**kwargs)` call inside the overridden `dict`: the plain
field dictionary of the model. -/
def CommentToStringSerializer.super_dict (s : CommentToStringSerializer) :
    List (String × PyVal) :=
  [("comment", .str s.comment)]

/-- Embedding of Python `dict.get(key, default)` on a field dictionary. -/
def py_dict_get (d : List (String × PyVal)) (key : String) (default : PyVal) :
    PyVal :=
  ((d.find? (fun p => p.1 == key)).map Prod.snd).getD default

/-- The overridden `dict`: `super().dict(**kwargs).get("comment", "")`
returns the bare comment string. -/
def CommentToStringSerializer.dict (s : CommentToStringSerializer) : PyVal :=
  py_dict_get s.super_dict "comment" (.str "")

/-- The `UserSerializer` pydantic model. -/
structure UserSerializer where
  id : Nat
  name : String
  comments : List CommentSerializer

/-- `UserSerializer.from_orm`: fields plus nested comment models. -/
def UserSerializer.from_orm (u : OrmUser) : UserSerializer :=
  { id := u.id, name := u.name,
    comments := u.comments.map CommentSerializer.from_orm }

/-- The `.dict()` of a `UserSerializer`: nested models are rendered through
their own `.dict()`. -/
def UserSerializer.dict (s : UserSerializer) : PyVal :=
  .dict [("id", .int s.id), ("name", .str s.name),
         ("comments", .list (s.comments.map CommentSerializer.dict))]

/-- The `UserWithoutIDSerializer` pydantic model: no `id` field, and the
comments nested as `CommentToStringSerializer`. -/
structure UserWithoutIDSerializer where
  name : String
  comments : List CommentToStringSerializer

/-- `UserWithoutIDSerializer.from_orm`: the name plus nested comment
models. -/
def UserWithoutIDSerializer.from_orm (u : OrmUser) : UserWithoutIDSerializer :=
  { name := u.name,
    comments := u.comments.map CommentToStringSerializer.from_orm }

/-- The `.dict()` of a `UserWithoutIDSerializer`: nested models are rendered
through their overridden `.dict()`. -/
def UserWithoutIDSerializer.dict (s : UserWithoutIDSerializer) : PyVal :=
  .dict [("name", .str s.name),
         ("comments", .list (s.comments.map CommentToStringSerializer.dict))]

/-- The ORM user the demo feeds to both serializers. -/
def demo_orm_user : OrmUser :=
  (load_orm_user db_state_committed 1).getD { id := 0, name := "", comments := [] }

/-- The pydantic demo output: `bare_result` and `tweaked_result`. -/
def pydantic_main : PyVal × PyVal :=
  ((UserSerializer.from_orm demo_orm_user).dict,
   (UserWithoutIDSerializer.from_orm demo_orm_user).dict)

theorem user_without_id_dict_eq (u : OrmUser) :
    (UserWithoutIDSerializer.from_orm u).dict =
      PyVal.dict [("name", PyVal.str u.name),
        ("comments",
         PyVal.list (u.comments.map (fun c => PyVal.str c.comment)))] := by
  simp only [UserWithoutIDSerializer.from_orm, UserWithoutIDSerializer.dict,
    List.map_map]
  rfl

/-- C10: the `UserWithoutIDSerializer` output contains no identifier values:
any two ORM users with equal names and pairwise-equal comment texts serialize
to the same value, whatever their `id` and `user_id` fields hold; that value
is the dictionary of the name together with the list of bare comment strings
(`CommentToStringSerializer.dict` returning the comment string itself). -/
theorem user_without_id_serializer_ignores_ids (u₁ u₂ : OrmUser)
    (hname : u₁.name = u₂.name)
    (htexts : u₁.comments.map CommentRecord.comment =
      u₂.comments.map CommentRecord.comment) :
    (UserWithoutIDSerializer.from_orm u₁).dict =
      (UserWithoutIDSerializer.from_orm u₂).dict ∧
    (UserWithoutIDSerializer.from_orm u₁).dict =
      PyVal.dict [("name", PyVal.str u₁.name),
        ("comments",
         PyVal.list (u₁.comments.map (fun c => PyVal.str c.comment)))] := by
  refine ⟨?_, user_without_id_dict_eq u₁⟩
  rw [user_without_id_dict_eq u₁, user_without_id_dict_eq u₂, hname]
  have h₁ : u₁.comments.map (fun c => PyVal.str c.comment) =
      (u₁.comments.map CommentRecord.comment).map PyVal.str := by
    rw [List.map_map]; rfl
  have h₂ : u₂.comments.map (fun c => PyVal.str c.comment) =
      (u₂.comments.map CommentRecord.comment).map PyVal.str := by
    rw [List.map_map]; rfl
  rw [h₁, h₂, htexts]

/-- Witness for C10: two users equal up to identifiers — one of them the
demo's own committed user — produce the same serialized output. -/
theorem user_without_id_serializer_ignores_ids_witness :
    (UserWithoutIDSerializer.from_orm
      { id := 1, name := "Alice",
        comments := [{ id := 1, comment := "First comment.", user_id := 1 },
                     { id := 2, comment := "Second comment.", user_id := 1 }] }).dict =
    (UserWithoutIDSerializer.from_orm
      { id := 99, name := "Alice",
        comments := [{ id := 57, comment := "First comment.", user_id := 42 },
                     { id := 3, comment := "Second comment.", user_id := 7 }] }).dict :=
  (user_without_id_serializer_ignores_ids _ _ rfl rfl).1

end Pydantic

namespace LiveReload

/-- One registered watch: the file-path pattern, the shell command run on a
change, and the delay passed to `server.watch`. -/
structure WatchRule where
  pattern : String
  command : String
  delay : Nat
  deriving DecidableEq

/-- The configuration built by the launcher before serving: the `watch`
registrations in order, and the root of `serve`. -/
structure ServerConfig where
  watches : List WatchRule
  root : String
  deriving DecidableEq

/-- Embedding of `live_reload.py`: five `server.watch(...)` calls, each with
`shell("ablog build")` and `delay=1`, then `server.serve(root="docs/")`. -/
def live_reload_config : ServerConfig :=
  { watches := [
      { pattern := "*.md", command := "ablog build", delay := 1 },
      { pattern := "posts/*.md", command := "ablog build", delay := 1 },
      { pattern := "*.py", command := "ablog build", delay := 1 },
      { pattern := "_static/*", command := "ablog build", delay := 1 },
      { pattern := "_templates/*", command := "ablog build", delay := 1 }],
    root := "docs/" }

/-- C4: the launcher registers watches on exactly the five patterns `*.md`,
`posts/*.md`, `*.py`, `_static/*` and `_templates/*`, in that order, binds
every one of them to the same build command `ablog build` with delay 1, and
then serves the output directory `docs/`. -/
theorem live_reload_registrations :
    live_reload_config.watches.map WatchRule.pattern =
      ["*.md", "posts/*.md", "*.py", "_static/*", "_templates/*"] ∧
    live_reload_config.watches.all
      (fun w => w.command == "ablog build" && w.delay == 1) = true ∧
    live_reload_config.root = "docs/" := by
  decide

/-- State of the running server: rebuilds run, requests served, and whether
the serve loop has returned. -/
structure ServeState where
  builds : Nat
  requests : Nat
  exited : Bool
  deriving DecidableEq

/-- An external event the running server reacts to: a file changed, or an
HTTP request for the served directory arrived. -/
inductive ServeEvent where
  | file_changed (path : String)
  | http_request
  deriving DecidableEq

/-- Does a watch pattern match a changed path?  Each registered pattern holds
a single `*`, matching any (possibly empty) substring. -/
def pattern_matches (pattern path : String) : Bool :=
  match pattern.splitOn "*" with
  | [a] => path == a
  | [a, b] => path.startsWith a && path.endsWith b
  | _ => false

/-- Modelled from the spec: live reload is "a local development server that
rebuilds and re-serves documentation output whenever watched source files
change", so `server.serve` is an event loop.  One step handles one event: a
change to a path matching a registered pattern runs the build command, a
request serves the root directory; no event makes the loop return. -/
def serve_step (cfg : ServerConfig) (s : ServeState) (ev : ServeEvent) :
    ServeState :=
  match ev with
  | .file_changed path =>
    if cfg.watches.any (fun w => pattern_matches w.pattern path) then
      { s with builds := s.builds + 1 }
    else s
  | .http_request => { s with requests := s.requests + 1 }

/-- The serve loop after handling a finite prefix of its event stream. -/
def serve_run (cfg : ServerConfig) (events : List ServeEvent) : ServeState :=
  events.foldl (serve_step cfg) { builds := 0, requests := 0, exited := false }

/-- The launcher as a whole: register the five watches, then enter the serve
loop on `docs/`. -/
def live_reload_main (events : List ServeEvent) : ServeState :=
  serve_run live_reload_config events

theorem serve_step_preserves_exited (cfg : ServerConfig) (s : ServeState)
    (ev : ServeEvent) : (serve_step cfg s ev).exited = s.exited := by
  cases ev with
  | file_changed path =>
    simp only [serve_step]
    split <;> rfl
  | http_request => rfl

theorem serve_run_never_exits (cfg : ServerConfig) (events : List ServeEvent) :
    (serve_run cfg events).exited = false := by
  suffices h : ∀ s : ServeState, s.exited = false →
      (events.foldl (serve_step cfg) s).exited = false by
    exact h _ rfl
  induction events with
  | nil => exact fun s hs => hs
  | cons e t ih =>
    intro s hs
    exact ih _ ((serve_step_preserves_exited cfg s e).trans hs)

/-- C3 is refuted on `live_reload.py`: the launcher does not run start to
finish and exit.  After its registrations it enters the serve loop, and no
finite part of the event stream ever makes that loop return (and it prints
no result). -/
theorem live_reload_never_terminates :
    ¬ ∃ events : List ServeEvent, (live_reload_main events).exited = true := by
  rintro ⟨events, hex⟩
  rw [show live_reload_main events = serve_run live_reload_config events
    from rfl, serve_run_never_exits] at hex
  exact Bool.false_ne_true hex

/-- C3 amended: the two blog-post demo scripts run synchronously start to
finish and terminate, printing their results — the kedro loop its three
answers, the pydantic demo its two serialized dictionaries — while the
live-reload launcher performs its registrations synchronously and then blocks
in the serve loop, which never exits on its own. -/
theorem scripts_terminate_except_serve_loop :
    Kedro.kedro_main_loop Kedro.loaded_partitioned_dataset_demo =
      Except.ok [
        ("Who is Florian?", some "He is the boss!"),
        ("Who is Julien?",
         some "He is my boss...Oh, wait, no it\x27s Aymeric now!"),
        ("Who is Flavien?", some "I am the boss...of JIRA!")] ∧
    Pydantic.pydantic_main =
      (Pydantic.PyVal.dict [
         ("id", Pydantic.PyVal.int 1),
         ("name", Pydantic.PyVal.str "Alice"),
         ("comments", Pydantic.PyVal.list [
            Pydantic.PyVal.dict [
              ("id", Pydantic.PyVal.int 1),
              ("comment", Pydantic.PyVal.str "First comment."),
              ("user_id", Pydantic.PyVal.int 1)],
            Pydantic.PyVal.dict [
              ("id", Pydantic.PyVal.int 2),
              ("comment", Pydantic.PyVal.str "Second comment."),
              ("user_id", Pydantic.PyVal.int 1)]])],
       Pydantic.PyVal.dict [
         ("name", Pydantic.PyVal.str "Alice"),
         ("comments", Pydantic.PyVal.list [
            Pydantic.PyVal.str "First comment.",
            Pydantic.PyVal.str "Second comment."])]) ∧
    (∀ events : List ServeEvent, (live_reload_main events).exited = false) :=
  ⟨rfl, rfl, fun events => serve_run_never_exits live_reload_config events⟩

end LiveReload

namespace Scripts

/-- The kedro script as a process entry point: the script body never reads
its command-line arguments. -/
def kedro_script (_argv : List String) :
    Except String (List (String × Option String)) :=
  Kedro.kedro_main_loop Kedro.loaded_partitioned_dataset_demo

/-- The pydantic script as a process entry point: the script body never reads
its command-line arguments. -/
def pydantic_script (_argv : List String) : Pydantic.PyVal × Pydantic.PyVal :=
  Pydantic.pydantic_main

/-- The live-reload launcher as a process entry point: the script body never
reads its command-line arguments. -/
def live_reload_script (_argv : List String)
    (events : List LiveReload.ServeEvent) : LiveReload.ServeState :=
  LiveReload.live_reload_main events

/-- C7: no script defines or parses command-line flags or options: every
entry point behaves identically under any two argument lists (the launcher
for every event stream alike); the result value is the script's default
output, an `Except.error` standing for the only other outcome, an uncaught
exception. -/
theorem scripts_ignore_argv (argv₁ argv₂ : List String) :
    kedro_script argv₁ = kedro_script argv₂ ∧
    pydantic_script argv₁ = pydantic_script argv₂ ∧
    (∀ events, live_reload_script argv₁ events =
      live_reload_script argv₂ events) :=
  ⟨rfl, rfl, fun _ => rfl⟩

end Scripts
